import Mathlib

/-!
Verification of the bot combat core of StationIapetus.

The development shallowly embeds the Rust source:
* `game/src/bot/behavior/melee.rs` — the melee combat protocol
  (the `DoMeleeAttack` action leaf and the `CanMeleeAttack` gate leaf);
* `game/src/bot/mod.rs` — the bot aggregate (`Bot::poll_commands`,
  `Bot::on_update`, `Bot::set_target`).

Machine floats are modelled as rationals; scene handles as naturals with
`Option Nat` playing the role of possibly-null handles (the default handle
`Handle::NONE` is `none`); the thread-local random generator is passed as an
explicit pick parameter.  Parts of the `Character` component that are not in
the sources (its command queue and the base health reduction performed by
`Character::poll_command`, together with `is_dead` and the probability helper
`is_probability_event_occurred`) are modelled from the spec and flagged as
such in their doc comments.
-/

namespace StationIapetus

/-- Tri-state result of a behavior-tree node, from `fyrox::utils::behavior::Status`. -/
inductive Status where
  | Success
  | Failure
  | Running
deriving Repr, DecidableEq

/-- A timeline event emitted by a playing animation clip; only the signal id
is relevant to the melee protocol. -/
structure AnimEvent where
  signal_id : Nat
deriving Repr, DecidableEq

/-- The per-clip animation-player state the melee leaf reads and writes:
enabled flag, playback speed, whether playback has ended, and the queue of
emitted timeline events (drained via `pop_event`). -/
structure Animation where
  enabled : Bool
  speed : ℚ
  has_ended : Bool
  events : List AnimEvent
deriving Repr, DecidableEq

/-- `Animation::set_enabled`. -/
def Animation.set_enabled (a : Animation) (v : Bool) : Animation :=
  { a with enabled := v }

/-- `Animation::set_speed`. -/
def Animation.set_speed (a : Animation) (v : ℚ) : Animation :=
  { a with speed := v }

/-- `Animation::rewind`: playback restarts, so the clip is no longer ended.
The event queue is untouched (rewinding only resets the time position). -/
def Animation.rewind (a : Animation) : Animation :=
  { a with has_ended := false }

/-- The scene's animation container, keyed by animation handle. -/
def AnimPool := Nat → Animation

/-- Point update of the animation container (`animations.get_mut`). -/
def AnimPool.set (p : AnimPool) (h : Nat) (a : Animation) : AnimPool :=
  fun k => if k = h then a else p k

/-- The signal id the attack clips emit at the authored contact moment
(`UpperBodyMachine::HIT_SIGNAL` in `upper_body.rs`). -/
def HIT_SIGNAL : Nat := 1

/-- The fields of `UpperBodyMachine` the melee protocol reads: current active
state of the combat machine, the designated aim and attack states, and the
per-attack-definition list of instantiated clip handles. -/
structure UpperBodyMachine where
  active_state : Nat
  aim_state : Nat
  attack_state : Nat
  attack_animations : List Nat
deriving Repr, DecidableEq

/-- One melee attack's combat data (`AttackAnimationDefinition`); only the
damage amount is consumed by the melee leaf. -/
structure AttackAnimationDefinition where
  damage_amount : ℚ
deriving Repr, DecidableEq, Inhabited

/-- The slice of `BotDefinition` the combat core reads. -/
structure BotDefinition where
  can_use_weapons : Bool
  attack_animations : List AttackAnimationDefinition
  attack_sounds : List String
  pain_sounds : List String
deriving Repr, DecidableEq

/-- A hitbox marker carried by a damage command; only the head flag matters. -/
structure Hitbox where
  is_head : Bool
deriving Repr, DecidableEq

/-- `CharacterCommand::Damage` as enqueued on a character's command queue.
`who` is the source handle (`none` models `Handle::NONE`, the default). -/
structure DamageCommand where
  who : Option Nat
  hitbox : Option Hitbox
  amount : ℚ
  critical_shot_probability : ℚ
deriving Repr, DecidableEq

/-- A bot's currently tracked hostile (`Target` in `bot/mod.rs`). -/
structure Target where
  position : ℚ × ℚ × ℚ
  handle : Option Nat
deriving Repr, DecidableEq

/-- `can_shoot` from `melee.rs`: the bot could be shooting instead of
meleeing when the combat machine sits in the aim state and the species can
use weapons. -/
def can_shoot (m : UpperBodyMachine) (d : BotDefinition) : Bool :=
  m.active_state == m.aim_state && d.can_use_weapons

/-- Internal state of the `DoMeleeAttack` action leaf. -/
structure DoMeleeAttack where
  attack_timeout : ℚ
  attack_animation_index : Nat
deriving Repr, DecidableEq

/-- The slice of `BehaviorContext` the melee leaves read, plus whether the
tracked target's handle resolves to a character (`try_get_character_mut`). -/
structure MeleeContext where
  animations : AnimPool
  upper_body_machine : UpperBodyMachine
  definition : BotDefinition
  target : Option Target
  target_has_character : Bool
  dt : ℚ
  is_attacking : Bool

/-- Everything `DoMeleeAttack::tick` produces: the new leaf state, the
updated animation container, the output intents written into the context,
the damage commands pushed on the target character's queue, the attack
sounds played, and the tick status. -/
structure MeleeTickResult where
  leaf : DoMeleeAttack
  animations : AnimPool
  is_attacking : Bool
  out_attack_animation_index : Nat
  pushed_commands : List DamageCommand
  played_sounds : List String
  status : Status

/-- Whether a drained timeline event registers a melee hit: it carries the
hit signal while the combat machine's active state is the attack state and
the bot cannot shoot. -/
def hitQualifies (m : UpperBodyMachine) (d : BotDefinition) (e : AnimEvent) : Bool :=
  e.signal_id == HIT_SIGNAL && m.active_state == m.attack_state && !(can_shoot m d)

/-- Handle of the clip currently selected by the leaf
(`upper_body_machine.attack_animations[self.attack_animation_index]`). -/
def currentAttackHandle (s : DoMeleeAttack) (ctx : MeleeContext) : Nat :=
  ctx.upper_body_machine.attack_animations.getD s.attack_animation_index 0

/-- `DoMeleeAttack::tick` from `melee.rs`, in source order.  `animPick` is the
value drawn by `thread_rng().gen_range(0..len)` (modelled as `animPick % len`)
and `sndPick k` the random index drawn by `choose` on the attack-sound list
for the k-th qualifying event. -/
def doMeleeAttackTick (s : DoMeleeAttack) (ctx : MeleeContext)
    (animPick : Nat) (sndPick : Nat → Nat) : MeleeTickResult :=
  let current := currentAttackHandle s ctx
  let a0 := ctx.animations current
  let attack_animation_ended := a0.has_ended
  let fire := decide (s.attack_timeout ≤ 0) && (attack_animation_ended || !a0.enabled)
  let step1 :=
    if fire then
      let anims_a := ctx.animations.set current
        (((ctx.animations current).set_enabled true).set_speed 0).rewind
      let newIdx := animPick % ctx.upper_body_machine.attack_animations.length
      let newHandle := ctx.upper_body_machine.attack_animations.getD newIdx 0
      let anims_b := anims_a.set newHandle
        (((anims_a newHandle).set_enabled true).set_speed (13/10)).rewind
      (anims_b, newIdx, true)
    else
      (ctx.animations, s.attack_animation_index, ctx.is_attacking)
  let anims1 := step1.1
  let idx1 := step1.2.1
  let isAtt := step1.2.2
  let t1 := if s.attack_timeout < 0 ∧ attack_animation_ended then (3/10 : ℚ)
            else s.attack_timeout
  let t2 := t1 - ctx.dt
  match ctx.target with
  | none =>
      { leaf := ⟨t2, idx1⟩, animations := anims1, is_attacking := isAtt,
        out_attack_animation_index := idx1, pushed_commands := [],
        played_sounds := [], status := Status.Failure }
  | some _ =>
      let evs := (anims1 current).events
      let anims2 := anims1.set current { anims1 current with events := [] }
      let qual := evs.filter (hitQualifies ctx.upper_body_machine ctx.definition)
      let amount := (ctx.definition.attack_animations.getD idx1 default).damage_amount
      let pushed := if ctx.target_has_character then
          qual.map (fun _ => DamageCommand.mk none none amount 0)
        else []
      let sounds :=
        if ctx.definition.attack_sounds.isEmpty then []
        else (List.range qual.length).map (fun k =>
          ctx.definition.attack_sounds.getD
            (sndPick k % ctx.definition.attack_sounds.length) "")
      { leaf := ⟨t2, idx1⟩, animations := anims2, is_attacking := isAtt,
        out_attack_animation_index := idx1, pushed_commands := pushed,
        played_sounds := sounds, status := Status.Success }

/-- `CanMeleeAttack::tick` from `melee.rs`: a pure predicate over the shared
context, returning only a status. -/
def canMeleeAttackTick (target : Option Target) (restoration_time : ℚ) : Status :=
  match target with
  | none => Status.Failure
  | some _ =>
      if restoration_time ≤ 0 then Status.Success else Status.Failure

/-- Modelled from the spec: the `Character` component (its module is not in
the sources; only its callers are).  It owns the bot's health, the health
recorded at the last processed hit (`last_health`), and the FIFO command
queue drained by `poll_command`. -/
structure Character where
  health : ℚ
  last_health : ℚ
  commands : List DamageCommand
deriving Repr, DecidableEq

/-- Modelled from the spec: `Character::is_dead` — the character is dead once
health is exhausted. -/
def Character.is_dead (c : Character) : Bool :=
  decide (c.health ≤ 0)

/-- Modelled from the spec: `Character::push_command` — producers append to
the back of the per-character FIFO queue. -/
def Character.push_command (c : Character) (cmd : DamageCommand) : Character :=
  { c with commands := c.commands ++ [cmd] }

/-- What a node's script resolves to when a damage source handle is looked up
in the scene graph: a combatant (any script exposing a `Character` component,
with its current position), a weapon (exposing its owner handle), or
something else. -/
inductive EntityScript where
  | character (position : ℚ × ℚ × ℚ)
  | weapon (owner : Option Nat)
  | other
deriving Repr, DecidableEq

/-- The scene graph as consumed by damage resolution: a partial map from
handles to scripts.  `Handle::NONE` is the `none` handle and never resolves. -/
def Graph := Nat → Option EntityScript

/-- `graph.try_get(handle).and_then(script)`: a null handle or an absent
node yields nothing. -/
def Graph.tryGet (g : Graph) (h : Option Nat) : Option EntityScript :=
  h.bind g

/-- Target acquisition from `Bot::poll_commands` (lines 399-416): the source
handle is resolved; a combatant becomes the new target at its current
position, a weapon is followed to its owner (who must be a combatant);
anything else leaves the current target untouched. -/
def acquireTarget (g : Graph) (who : Option Nat) (cur : Option Target) : Option Target :=
  match g.tryGet who with
  | some (EntityScript.character pos) => some ⟨pos, who⟩
  | some (EntityScript.weapon owner) =>
      match g.tryGet owner with
      | some (EntityScript.character pos) => some ⟨pos, owner⟩
      | _ => cur
  | _ => cur

/-- `critical_shot_probability.clamp(0.0, 1.0)` from `Bot::poll_commands`. -/
def clamp01 (p : ℚ) : ℚ :=
  max 0 (min 1 p)

/-- Modelled from the spec: `is_probability_event_occurred` (in `utils`,
not under the sources) — a uniform roll in `[0,1)` succeeds iff it falls
below the probability. -/
def is_probability_event_occurred (p : ℚ) (roll : ℚ) : Bool :=
  decide (roll < p)

/-- `BotCommand::HandleImpact`, the bot's own deferred-impact queue entry. -/
structure ImpactCommand where
  handle : Option Nat
  impact_point : ℚ × ℚ × ℚ
  direction : ℚ × ℚ × ℚ
deriving Repr, DecidableEq

/-- The mutable bot state touched by command polling: the character
component, the tracked target, the restoration (stagger) timer, the cosmetic
head-destruction flag and the bot's own impact queue. -/
structure BotState where
  character : Character
  target : Option Target
  restoration_time : ℚ
  head_exploded : Bool
  bot_commands : List ImpactCommand
deriving Repr, DecidableEq

/-- The critical head-shot test of `Bot::poll_commands`: the command carries
a hitbox flagged as head and the clamped critical-probability roll succeeds. -/
def critOccurs (cmd : DamageCommand) (roll : ℚ) : Bool :=
  match cmd.hitbox with
  | some hb =>
      hb.is_head && is_probability_event_occurred
        (clamp01 cmd.critical_shot_probability) roll
  | none => false

/-- The stagger test of `Bot::poll_commands`: the health drop since the last
processed hit exceeds 20 and the bot is not dead. -/
def staggerTriggered (c : Character) : Bool :=
  decide (c.last_health - c.health > 20) && !c.is_dead

/-- The pain sounds played while processing one damage command: one random
pick from the pain-sound list when the stagger branch fires (and the list is
non-empty), nothing otherwise. -/
def painSounds (d : BotDefinition) (stagger : Bool) (sndPick : Nat) : List String :=
  if stagger && !d.pain_sounds.isEmpty then
    [d.pain_sounds.getD (sndPick % d.pain_sounds.length) ""]
  else []

/-- Processing of one drained `CharacterCommand::Damage` by the bot, in
source order (`Bot::poll_commands`, lines 392-449): the base health
reduction performed by `Character::poll_command` (modelled from the spec),
target acquisition, the critical head-shot branch, and the stagger /
pain-sound branch.  `roll` is the per-event probability roll and `sndPick`
the random pick into the pain-sound list.  Returns the new state together
with the pain sounds played. -/
def processDamageCommand (g : Graph) (d : BotDefinition) (b : BotState)
    (cmd : DamageCommand) (roll : ℚ) (sndPick : Nat) : BotState × List String :=
  let c1 := { b.character with health := b.character.health - cmd.amount }
  let tgt := acquireTarget g cmd.who b.target
  let crit := critOccurs cmd roll
  let c2 := if crit then { c1 with health := c1.health - cmd.amount * 1000 } else c1
  let stagger := staggerTriggered c2
  ({ character :=
      { c2 with last_health := if stagger then c2.health else c2.last_health },
     target := tgt,
     restoration_time := if stagger then 8/10 else b.restoration_time,
     head_exploded := b.head_exploded || crit,
     bot_commands := b.bot_commands },
   painSounds d stagger sndPick)

/-- The `while let Some(command) = self.character.poll_command(..)` loop:
commands are popped from the front one at a time and each is processed
exactly once.  Returns the final state, the pain sounds played and the trace
of processed commands in processing order. -/
def drainDamage (g : Graph) (d : BotDefinition) (rolls : Nat → ℚ)
    (snd : Nat → Nat) :
    List DamageCommand → BotState → Nat → BotState × List String × List DamageCommand
  | [], b, _ => (b, [], [])
  | cmd :: rest, b, k =>
      let r1 := processDamageCommand g d b cmd (rolls k) (snd k)
      let r2 := drainDamage g d rolls snd rest r1.1 (k + 1)
      (r2.1, r1.2 ++ r2.2.1, cmd :: r2.2.2)

/-- Result of `Bot::poll_commands`: post-drain state, pain sounds, and the
FIFO traces of processed damage commands and handled impacts. -/
structure PollResult where
  state : BotState
  pain_sounds : List String
  damage_trace : List DamageCommand
  impact_trace : List ImpactCommand
deriving Repr, DecidableEq

/-- `Bot::poll_commands`: first the character command queue is drained fully
(front to back), then the bot's own impact queue is drained fully
(`pop_front`, each impact handed to the impact handler). -/
def pollCommands (g : Graph) (d : BotDefinition) (b : BotState)
    (rolls : Nat → ℚ) (snd : Nat → Nat) : PollResult :=
  let init : BotState := { b with character := { b.character with commands := [] } }
  let r := drainDamage g d rolls snd b.character.commands init 0
  { state := { r.1 with bot_commands := [] },
    pain_sounds := r.2.1,
    damage_trace := r.2.2,
    impact_trace := r.1.bot_commands }

/-- The tick skeleton of `Bot::on_update` relevant to command ordering:
`poll_commands` runs first, the behavior tree is ticked on the post-drain
state (the tree is abstracted as a state transformer), and only afterwards
the restoration timer decays by `dt`. -/
def onUpdate (g : Graph) (d : BotDefinition) (tree : BotState → BotState)
    (b : BotState) (rolls : Nat → ℚ) (snd : Nat → Nat) (dt : ℚ) :
    BotState × PollResult :=
  let p := pollCommands g d b rolls snd
  let afterTree := tree p.state
  ({ afterTree with restoration_time := afterTree.restoration_time - dt }, p)

@[simp] theorem AnimPool.set_apply (p : AnimPool) (h k : Nat) (a : Animation) :
    AnimPool.set p h a k = if k = h then a else p k := rfl

/-- C2: for every tick, the melee gate leaf returns `Success` iff a target is
tracked and the restoration timer is `≤ 0`, and `Failure` iff at least one of
those conditions fails; it is a pure predicate (in the embedding it consumes
only read-only inputs and returns nothing but the status). -/
theorem canMeleeAttack_gate_iff (target : Option Target) (rest : ℚ) :
    (canMeleeAttackTick target rest = Status.Success ↔
      target.isSome = true ∧ rest ≤ 0) ∧
    (canMeleeAttackTick target rest = Status.Failure ↔
      target = none ∨ 0 < rest) := by
  cases target with
  | none => simp [canMeleeAttackTick]
  | some t =>
      by_cases h : rest ≤ 0 <;>
        simp [canMeleeAttackTick, h, lt_iff_not_ge, ge_iff_le]

/-- C5: on a tick where the attack timer has gone strictly negative and the
current attack clip has finished playing, the timer is reset to the fixed
post-attack cooldown `0.3` (and then, as every tick, decremented by `dt`). -/
theorem melee_cooldown_reset (s : DoMeleeAttack) (ctx : MeleeContext)
    (animPick : Nat) (sndPick : Nat → Nat)
    (hneg : s.attack_timeout < 0)
    (hended : (ctx.animations (currentAttackHandle s ctx)).has_ended = true) :
    (doMeleeAttackTick s ctx animPick sndPick).leaf.attack_timeout =
      3/10 - ctx.dt := by
  unfold doMeleeAttackTick
  cases htgt : ctx.target <;> simp [htgt, hneg, hended]

/-- Closed witness for `melee_cooldown_reset` at a concrete leaf state and
context. -/
theorem melee_cooldown_reset_witness :
    (doMeleeAttackTick ⟨-1, 0⟩
      { animations := fun _ => ⟨true, 1, true, []⟩,
        upper_body_machine := ⟨0, 2, 3, [5]⟩,
        definition := ⟨false, [⟨10⟩], [], []⟩,
        target := none, target_has_character := false,
        dt := 1/100, is_attacking := false } 0 (fun _ => 0)).leaf.attack_timeout =
      3/10 - 1/100 :=
  melee_cooldown_reset ⟨-1, 0⟩ _ 0 (fun _ => 0) (by norm_num) rfl

/-- C3: the action leaf never starts a new attack while its internal timer is
strictly positive — on such a tick the attacking intent, the selected index
and every clip's enabled/speed/ended flags are left untouched and the timer
just decays by `dt`; moreover, on every tick and in every branch, the final
timer is the (possibly cooldown-reset) timer minus the tick delta. -/
theorem melee_no_start_while_timer_positive (s : DoMeleeAttack)
    (ctx : MeleeContext) (animPick : Nat) (sndPick : Nat → Nat) :
    (0 < s.attack_timeout →
      (doMeleeAttackTick s ctx animPick sndPick).is_attacking = ctx.is_attacking ∧
      (doMeleeAttackTick s ctx animPick sndPick).leaf.attack_animation_index =
        s.attack_animation_index ∧
      (∀ h : Nat,
        ((doMeleeAttackTick s ctx animPick sndPick).animations h).enabled =
          (ctx.animations h).enabled ∧
        ((doMeleeAttackTick s ctx animPick sndPick).animations h).speed =
          (ctx.animations h).speed ∧
        ((doMeleeAttackTick s ctx animPick sndPick).animations h).has_ended =
          (ctx.animations h).has_ended) ∧
      (doMeleeAttackTick s ctx animPick sndPick).leaf.attack_timeout =
        s.attack_timeout - ctx.dt) ∧
    (doMeleeAttackTick s ctx animPick sndPick).leaf.attack_timeout =
      (if s.attack_timeout < 0 ∧
          (ctx.animations (currentAttackHandle s ctx)).has_ended = true
       then (3/10 : ℚ) else s.attack_timeout) - ctx.dt := by
  constructor
  · intro hpos
    have hnle : ¬ s.attack_timeout ≤ 0 := not_le.mpr hpos
    have hnlt : ¬ s.attack_timeout < 0 := not_lt.mpr (le_of_lt hpos)
    unfold doMeleeAttackTick
    cases htgt : ctx.target with
    | none =>
        refine ⟨by simp [htgt, hnle], by simp [htgt, hnle], ?_, by simp [htgt, hnle, hnlt]⟩
        intro h
        simp [htgt, hnle]
    | some t =>
        refine ⟨by simp [htgt, hnle], by simp [htgt, hnle], ?_, by simp [htgt, hnle, hnlt]⟩
        intro h
        by_cases hc : h = currentAttackHandle s ctx <;> simp [htgt, hnle, hc]
  · unfold doMeleeAttackTick
    cases htgt : ctx.target with
    | none =>
        by_cases hcond : s.attack_timeout < 0 ∧
            (ctx.animations (currentAttackHandle s ctx)).has_ended = true <;>
          simp [htgt, hcond]
    | some t =>
        by_cases hcond : s.attack_timeout < 0 ∧
            (ctx.animations (currentAttackHandle s ctx)).has_ended = true <;>
          simp [htgt, hcond]

/-- Closed witness for `melee_no_start_while_timer_positive` at a concrete
leaf state and context with a positive timer. -/
theorem melee_no_start_while_timer_positive_witness :
    (doMeleeAttackTick ⟨1, 0⟩
      { animations := fun _ => ⟨true, 1, true, []⟩,
        upper_body_machine := ⟨0, 2, 3, [5]⟩,
        definition := ⟨false, [⟨10⟩], [], []⟩,
        target := none, target_has_character := false,
        dt := 1/100, is_attacking := false } 0 (fun _ => 0)).is_attacking = false ∧
    (doMeleeAttackTick ⟨1, 0⟩
      { animations := fun _ => ⟨true, 1, true, []⟩,
        upper_body_machine := ⟨0, 2, 3, [5]⟩,
        definition := ⟨false, [⟨10⟩], [], []⟩,
        target := none, target_has_character := false,
        dt := 1/100, is_attacking := false } 0 (fun _ => 0)).leaf.attack_timeout =
      1 - 1/100 := by
  have h := melee_no_start_while_timer_positive ⟨1, 0⟩
    { animations := fun _ => ⟨true, 1, true, []⟩,
      upper_body_machine := ⟨0, 2, 3, [5]⟩,
      definition := ⟨false, [⟨10⟩], [], []⟩,
      target := none, target_has_character := false,
      dt := 1/100, is_attacking := false } 0 (fun _ => 0)
  have h1 := h.1 (by norm_num)
  exact ⟨h1.1, h1.2.2.2⟩

/-- C4: on a tick where the attack timer is `≤ 0` and the currently selected
attack clip has finished or is disabled, the leaf picks a new attack index
from the full range of the attack list (the random draw `animPick` is mapped
onto `[0, len)` and every index in that range is realizable), enables and
rewinds that clip at playback speed `1.3`, and sets the attacking intent. -/
theorem melee_attack_start (s : DoMeleeAttack) (ctx : MeleeContext)
    (animPick : Nat) (sndPick : Nat → Nat)
    (hto : s.attack_timeout ≤ 0)
    (hready : (ctx.animations (currentAttackHandle s ctx)).has_ended = true ∨
              (ctx.animations (currentAttackHandle s ctx)).enabled = false)
    (hlen : 0 < ctx.upper_body_machine.attack_animations.length) :
    (doMeleeAttackTick s ctx animPick sndPick).leaf.attack_animation_index =
      animPick % ctx.upper_body_machine.attack_animations.length ∧
    animPick % ctx.upper_body_machine.attack_animations.length <
      ctx.upper_body_machine.attack_animations.length ∧
    (((doMeleeAttackTick s ctx animPick sndPick).animations
        (ctx.upper_body_machine.attack_animations.getD
          (animPick % ctx.upper_body_machine.attack_animations.length) 0)).enabled
      = true ∧
     ((doMeleeAttackTick s ctx animPick sndPick).animations
        (ctx.upper_body_machine.attack_animations.getD
          (animPick % ctx.upper_body_machine.attack_animations.length) 0)).speed
      = 13/10 ∧
     ((doMeleeAttackTick s ctx animPick sndPick).animations
        (ctx.upper_body_machine.attack_animations.getD
          (animPick % ctx.upper_body_machine.attack_animations.length) 0)).has_ended
      = false) ∧
    (doMeleeAttackTick s ctx animPick sndPick).is_attacking = true ∧
    (∀ j, j < ctx.upper_body_machine.attack_animations.length →
      ∃ pick, (doMeleeAttackTick s ctx pick sndPick).leaf.attack_animation_index
        = j) := by
  have key : ∀ p : Nat,
      (doMeleeAttackTick s ctx p sndPick).leaf.attack_animation_index =
        p % ctx.upper_body_machine.attack_animations.length ∧
      (((doMeleeAttackTick s ctx p sndPick).animations
          (ctx.upper_body_machine.attack_animations.getD
            (p % ctx.upper_body_machine.attack_animations.length) 0)).enabled
        = true ∧
       ((doMeleeAttackTick s ctx p sndPick).animations
          (ctx.upper_body_machine.attack_animations.getD
            (p % ctx.upper_body_machine.attack_animations.length) 0)).speed
        = 13/10 ∧
       ((doMeleeAttackTick s ctx p sndPick).animations
          (ctx.upper_body_machine.attack_animations.getD
            (p % ctx.upper_body_machine.attack_animations.length) 0)).has_ended
        = false) ∧
      (doMeleeAttackTick s ctx p sndPick).is_attacking = true := by
    intro p
    unfold doMeleeAttackTick
    rcases hready with h | h <;>
      cases htgt : ctx.target <;>
        simp [htgt, hto, h, Animation.rewind, Animation.set_speed,
          Animation.set_enabled] <;>
      split <;> simp_all
  refine ⟨(key animPick).1, Nat.mod_lt _ hlen, (key animPick).2.1,
    (key animPick).2.2, ?_⟩
  intro j hj
  exact ⟨j, by rw [(key j).1, Nat.mod_eq_of_lt hj]⟩

/-- Closed witness for `melee_attack_start`: a ready leaf over a three-entry
attack list starts the clip picked by the draw at speed `1.3`. -/
theorem melee_attack_start_witness :
    (doMeleeAttackTick ⟨0, 0⟩
      { animations := fun _ => ⟨true, 1, true, []⟩,
        upper_body_machine := ⟨0, 2, 3, [5, 6, 7]⟩,
        definition := ⟨false, [⟨10⟩, ⟨20⟩, ⟨30⟩], [], []⟩,
        target := none, target_has_character := false,
        dt := 1/100, is_attacking := false } 4 (fun _ => 0)).leaf.attack_animation_index
      = 1 ∧
    ((doMeleeAttackTick ⟨0, 0⟩
      { animations := fun _ => ⟨true, 1, true, []⟩,
        upper_body_machine := ⟨0, 2, 3, [5, 6, 7]⟩,
        definition := ⟨false, [⟨10⟩, ⟨20⟩, ⟨30⟩], [], []⟩,
        target := none, target_has_character := false,
        dt := 1/100, is_attacking := false } 4 (fun _ => 0)).animations 6).speed
      = 13/10 ∧
    (doMeleeAttackTick ⟨0, 0⟩
      { animations := fun _ => ⟨true, 1, true, []⟩,
        upper_body_machine := ⟨0, 2, 3, [5, 6, 7]⟩,
        definition := ⟨false, [⟨10⟩, ⟨20⟩, ⟨30⟩], [], []⟩,
        target := none, target_has_character := false,
        dt := 1/100, is_attacking := false } 4 (fun _ => 0)).is_attacking = true := by
  have h := melee_attack_start ⟨0, 0⟩
    { animations := fun _ => ⟨true, 1, true, []⟩,
      upper_body_machine := ⟨0, 2, 3, [5, 6, 7]⟩,
      definition := ⟨false, [⟨10⟩, ⟨20⟩, ⟨30⟩], [], []⟩,
      target := none, target_has_character := false,
      dt := 1/100, is_attacking := false } 4 (fun _ => 0)
    (by norm_num) (Or.inl rfl) (by norm_num)
  exact ⟨h.1, h.2.2.1.2.1, h.2.2.2.1⟩

/-- C1: on a tick with a tracked target that resolves to a character, the
leaf drains the current attack clip's emitted signals; every drained hit
signal observed while the combat machine is in the attack state and the bot
cannot shoot enqueues exactly one `Damage` command on the target's queue —
with the selected attack definition's damage amount and critical-shot
probability `0` — and at most one attack sound is played per such signal
(so with a single hit signal, at most one sound that tick). -/
theorem melee_hit_registration (s : DoMeleeAttack) (ctx : MeleeContext)
    (animPick : Nat) (sndPick : Nat → Nat) (tgt : Target)
    (htgt : ctx.target = some tgt)
    (hchar : ctx.target_has_character = true) :
    (doMeleeAttackTick s ctx animPick sndPick).pushed_commands =
      ((ctx.animations (currentAttackHandle s ctx)).events.filter
        (hitQualifies ctx.upper_body_machine ctx.definition)).map
        (fun _ => DamageCommand.mk none none
          ((ctx.definition.attack_animations.getD
            (doMeleeAttackTick s ctx animPick sndPick).out_attack_animation_index
            default).damage_amount) 0) ∧
    (doMeleeAttackTick s ctx animPick sndPick).played_sounds.length ≤
      ((ctx.animations (currentAttackHandle s ctx)).events.filter
        (hitQualifies ctx.upper_body_machine ctx.definition)).length := by
  unfold doMeleeAttackTick
  cases hf : (decide (s.attack_timeout ≤ 0) &&
      ((ctx.animations (currentAttackHandle s ctx)).has_ended ||
       !(ctx.animations (currentAttackHandle s ctx)).enabled)) <;>
    by_cases hs : ctx.definition.attack_sounds.isEmpty = true <;>
      simp [htgt, hchar, hf, hs, Animation.rewind, Animation.set_speed,
        Animation.set_enabled] <;>
      split <;> simp_all

/-- Closed witness for `melee_hit_registration`: one hit signal in the attack
state enqueues exactly one `Damage` command with amount `10` and critical
probability `0`, and no more than one sound plays. -/
theorem melee_hit_registration_witness :
    (doMeleeAttackTick ⟨1, 0⟩
      { animations := fun _ => ⟨true, 1, false, [⟨1⟩]⟩,
        upper_body_machine := ⟨3, 2, 3, [5]⟩,
        definition := ⟨false, [⟨10⟩], [], []⟩,
        target := some ⟨(0, 0, 0), some 9⟩, target_has_character := true,
        dt := 1/100, is_attacking := false } 0 (fun _ => 0)).pushed_commands =
      [⟨none, none, 10, 0⟩] ∧
    (doMeleeAttackTick ⟨1, 0⟩
      { animations := fun _ => ⟨true, 1, false, [⟨1⟩]⟩,
        upper_body_machine := ⟨3, 2, 3, [5]⟩,
        definition := ⟨false, [⟨10⟩], [], []⟩,
        target := some ⟨(0, 0, 0), some 9⟩, target_has_character := true,
        dt := 1/100, is_attacking := false } 0 (fun _ => 0)).played_sounds.length
      ≤ 1 := by
  have h := melee_hit_registration ⟨1, 0⟩
    { animations := fun _ => ⟨true, 1, false, [⟨1⟩]⟩,
      upper_body_machine := ⟨3, 2, 3, [5]⟩,
      definition := ⟨false, [⟨10⟩], [], []⟩,
      target := some ⟨(0, 0, 0), some 9⟩, target_has_character := true,
      dt := 1/100, is_attacking := false } 0 (fun _ => 0) ⟨(0, 0, 0), some 9⟩
    rfl rfl
  exact ⟨by rw [h.1]; decide, by simpa using h.2⟩

/-- C7: for a processed `Damage` command carrying a head-flagged hitbox and a
uniform roll in `[0,1)`: with critical-shot probability `1.0` (after clamping)
the damage is always amplified by the fixed `1000×` multiplier and the
head-destruction flag is set; with probability `0.0` neither ever happens. -/
theorem head_crit_boundary (g : Graph) (d : BotDefinition) (b : BotState)
    (cmd : DamageCommand) (roll : ℚ) (sndPick : Nat)
    (hhead : cmd.hitbox = some ⟨true⟩)
    (hroll0 : 0 ≤ roll) (hroll1 : roll < 1) :
    (cmd.critical_shot_probability = 1 →
      (processDamageCommand g d b cmd roll sndPick).1.character.health =
        b.character.health - cmd.amount - cmd.amount * 1000 ∧
      (processDamageCommand g d b cmd roll sndPick).1.head_exploded = true) ∧
    (cmd.critical_shot_probability = 0 →
      (processDamageCommand g d b cmd roll sndPick).1.character.health =
        b.character.health - cmd.amount ∧
      (processDamageCommand g d b cmd roll sndPick).1.head_exploded =
        b.head_exploded) := by
  constructor
  · intro hp
    have hc : critOccurs cmd roll = true := by
      simp [critOccurs, hhead, is_probability_event_occurred, clamp01, hp, hroll1]
    unfold processDamageCommand
    simp [hc]
  · intro hp
    have hc : critOccurs cmd roll = false := by
      simp [critOccurs, hhead, is_probability_event_occurred, clamp01, hp,
        not_lt.mpr hroll0]
    unfold processDamageCommand
    simp [hc]

/-- Closed witness for `head_crit_boundary`: a head hit with probability 1
multiplies a 2-point hit by 1000 and sets the flag; with probability 0 it
only applies the base 2 points. -/
theorem head_crit_boundary_witness :
    ((processDamageCommand (fun _ => none) ⟨false, [], [], []⟩
        ⟨⟨100, 100, []⟩, none, 0, false, []⟩
        ⟨none, some ⟨true⟩, 2, 1⟩ (1/2) 0).1.character.health =
      100 - 2 - 2 * 1000 ∧
     (processDamageCommand (fun _ => none) ⟨false, [], [], []⟩
        ⟨⟨100, 100, []⟩, none, 0, false, []⟩
        ⟨none, some ⟨true⟩, 2, 1⟩ (1/2) 0).1.head_exploded = true) ∧
    ((processDamageCommand (fun _ => none) ⟨false, [], [], []⟩
        ⟨⟨100, 100, []⟩, none, 0, false, []⟩
        ⟨none, some ⟨true⟩, 2, 0⟩ (1/2) 0).1.character.health = 100 - 2 ∧
     (processDamageCommand (fun _ => none) ⟨false, [], [], []⟩
        ⟨⟨100, 100, []⟩, none, 0, false, []⟩
        ⟨none, some ⟨true⟩, 2, 0⟩ (1/2) 0).1.head_exploded = false) := by
  constructor
  · exact (head_crit_boundary (fun _ => none) ⟨false, [], [], []⟩
      ⟨⟨100, 100, []⟩, none, 0, false, []⟩ ⟨none, some ⟨true⟩, 2, 1⟩ (1/2) 0
      rfl (by norm_num) (by norm_num)).1 rfl
  · exact (head_crit_boundary (fun _ => none) ⟨false, [], [], []⟩
      ⟨⟨100, 100, []⟩, none, 0, false, []⟩ ⟨none, some ⟨true⟩, 2, 0⟩ (1/2) 0
      rfl (by norm_num) (by norm_num)).2 rfl

/-- C8: damage-source resolution — a source handle resolving to a character
makes that entity (at its current position) the new target; a source
resolving to a weapon whose owner is a character makes the owner the new
target; a source resolving to no known entity skips target acquisition
without error, and damage processing still runs (health is still debited). -/
theorem processDamageCommand_target (g : Graph) (d : BotDefinition)
    (b : BotState) (cmd : DamageCommand) (roll : ℚ) (sndPick : Nat) :
    (processDamageCommand g d b cmd roll sndPick).1.target =
      acquireTarget g cmd.who b.target := rfl

theorem processDamageCommand_health_nohitbox (g : Graph) (d : BotDefinition)
    (b : BotState) (cmd : DamageCommand) (roll : ℚ) (sndPick : Nat)
    (hnohb : cmd.hitbox = none) :
    (processDamageCommand g d b cmd roll sndPick).1.character.health =
      b.character.health - cmd.amount := by
  unfold processDamageCommand
  simp [critOccurs, hnohb]

theorem damage_source_resolution (g : Graph) (d : BotDefinition) (b : BotState)
    (cmd : DamageCommand) (roll : ℚ) (sndPick : Nat) :
    (∀ pos, g.tryGet cmd.who = some (EntityScript.character pos) →
      (processDamageCommand g d b cmd roll sndPick).1.target =
        some ⟨pos, cmd.who⟩) ∧
    (∀ owner pos, g.tryGet cmd.who = some (EntityScript.weapon owner) →
      g.tryGet owner = some (EntityScript.character pos) →
      (processDamageCommand g d b cmd roll sndPick).1.target =
        some ⟨pos, owner⟩) ∧
    (g.tryGet cmd.who = none →
      (processDamageCommand g d b cmd roll sndPick).1.target = b.target ∧
      (cmd.hitbox = none →
        (processDamageCommand g d b cmd roll sndPick).1.character.health =
          b.character.health - cmd.amount)) := by
  refine ⟨?_, ?_, ?_⟩
  · intro pos hres
    rw [processDamageCommand_target]
    simp [acquireTarget, hres]
  · intro owner pos hres hown
    rw [processDamageCommand_target]
    simp [acquireTarget, hres, hown]
  · intro hres
    refine ⟨?_, fun hnohb =>
      processDamageCommand_health_nohitbox g d b cmd roll sndPick hnohb⟩
    rw [processDamageCommand_target]
    simp [acquireTarget, hres]

/-- Closed witness for `damage_source_resolution`: in a world where handle 7
is a character, a damage command sourced from 7 retargets the bot onto 7,
while a command sourced from the absent handle 8 leaves the target alone and
still debits health. -/
theorem damage_source_resolution_witness :
    (processDamageCommand (fun n => if n = 7 then
        some (EntityScript.character (1, 2, 3)) else none)
      ⟨false, [], [], []⟩ ⟨⟨100, 100, []⟩, none, 0, false, []⟩
      ⟨some 7, none, 5, 0⟩ 0 0).1.target = some ⟨(1, 2, 3), some 7⟩ ∧
    (processDamageCommand (fun n => if n = 7 then
        some (EntityScript.character (1, 2, 3)) else none)
      ⟨false, [], [], []⟩ ⟨⟨100, 100, []⟩, none, 0, false, []⟩
      ⟨some 8, none, 5, 0⟩ 0 0).1.target = none ∧
    (processDamageCommand (fun n => if n = 7 then
        some (EntityScript.character (1, 2, 3)) else none)
      ⟨false, [], [], []⟩ ⟨⟨100, 100, []⟩, none, 0, false, []⟩
      ⟨some 8, none, 5, 0⟩ 0 0).1.character.health = 100 - 5 := by
  have h1 := (damage_source_resolution (fun n => if n = 7 then
      some (EntityScript.character (1, 2, 3)) else none)
    ⟨false, [], [], []⟩ ⟨⟨100, 100, []⟩, none, 0, false, []⟩
    ⟨some 7, none, 5, 0⟩ 0 0).1 (1, 2, 3) rfl
  have h2 := (damage_source_resolution (fun n => if n = 7 then
      some (EntityScript.character (1, 2, 3)) else none)
    ⟨false, [], [], []⟩ ⟨⟨100, 100, []⟩, none, 0, false, []⟩
    ⟨some 8, none, 5, 0⟩ 0 0).2.2 (by decide)
  exact ⟨h1, h2.1, h2.2 rfl⟩

/-- C6 counterexample: a 25-point drop sets the restoration timer to 0.8 and
plays one pain sound — but a second 25-point damage command drained
immediately afterwards (hence well inside the 0.8 stagger window) plays a
SECOND pain sound: the throttle is keyed to the health delta since the last
processed hit, not to the restoration-timer window. -/
theorem pain_sound_counterexample :
    (processDamageCommand (fun _ => none) ⟨false, [], [], ["pain"]⟩
      ⟨⟨100, 100, []⟩, none, 0, false, []⟩
      ⟨none, none, 25, 0⟩ 0 0).1.restoration_time = 8/10 ∧
    (processDamageCommand (fun _ => none) ⟨false, [], [], ["pain"]⟩
      ⟨⟨100, 100, []⟩, none, 0, false, []⟩
      ⟨none, none, 25, 0⟩ 0 0).2 = ["pain"] ∧
    (pollCommands (fun _ => none) ⟨false, [], [], ["pain"]⟩
      ⟨⟨100, 100, [⟨none, none, 25, 0⟩, ⟨none, none, 25, 0⟩]⟩,
        none, 0, false, []⟩
      (fun _ => 0) (fun _ => 0)).pain_sounds = ["pain", "pain"] := by
  refine ⟨?_, ?_, ?_⟩ <;>
    norm_num [pollCommands, drainDamage, processDamageCommand, critOccurs,
      staggerTriggered, painSounds, Character.is_dead, acquireTarget,
      Graph.tryGet]

/-- C6 amended: for every processed Damage command, if the health drop since
the last processed hit exceeds 20 and the bot is still alive, the restoration
timer is set to 0.8 and exactly one pain sound plays (whatever the current
restoration timer); every processed command plays at most one pain sound —
but the per-window claim fails: a second 25-point drop before the timer
decays past 0 does play a second pain sound (see the counterexample). -/
theorem pain_stagger_per_command (g : Graph) (d : BotDefinition) (b : BotState)
    (cmd : DamageCommand) (roll : ℚ) (sndPick : Nat)
    (hnohb : cmd.hitbox = none)
    (hdrop : b.character.last_health - (b.character.health - cmd.amount) > 20)
    (halive : ¬ b.character.health - cmd.amount ≤ 0)
    (hp : d.pain_sounds.isEmpty = false) :
    (processDamageCommand g d b cmd roll sndPick).1.restoration_time = 8/10 ∧
    (processDamageCommand g d b cmd roll sndPick).2.length = 1 ∧
    (∀ (g' : Graph) (d' : BotDefinition) (b' : BotState) (cmd' : DamageCommand)
      (roll' : ℚ) (snd' : Nat),
      (processDamageCommand g' d' b' cmd' roll' snd').2.length ≤ 1) := by
  have hc : critOccurs cmd roll = false := by simp [critOccurs, hnohb]
  have hst : staggerTriggered
      { b.character with health := b.character.health - cmd.amount } = true := by
    simp [staggerTriggered, Character.is_dead, hdrop, halive]
  have hlen : ∀ (d' : BotDefinition) (st : Bool) (sp : Nat),
      (painSounds d' st sp).length ≤ 1 := by
    intro d' st sp
    unfold painSounds
    split <;> simp
  refine ⟨?_, ?_, fun g' d' b' cmd' roll' snd' => hlen d' _ snd'⟩
  · unfold processDamageCommand
    simp [hc, hst, hp]
  · unfold processDamageCommand
    simp [hc, hst, hp, painSounds]

/-- Closed witness for `pain_stagger_per_command`: one 25-point hit on a
100-health bot staggers it (timer 0.8) and plays exactly one pain sound. -/
theorem pain_stagger_per_command_witness :
    (processDamageCommand (fun _ => none) ⟨false, [], [], ["pain"]⟩
      ⟨⟨100, 100, []⟩, some ⟨(0, 0, 0), some 4⟩, 8/10, false, []⟩
      ⟨none, none, 25, 0⟩ 0 0).1.restoration_time = 8/10 ∧
    (processDamageCommand (fun _ => none) ⟨false, [], [], ["pain"]⟩
      ⟨⟨100, 100, []⟩, some ⟨(0, 0, 0), some 4⟩, 8/10, false, []⟩
      ⟨none, none, 25, 0⟩ 0 0).2.length = 1 := by
  have h := pain_stagger_per_command (fun _ => none) ⟨false, [], [], ["pain"]⟩
    ⟨⟨100, 100, []⟩, some ⟨(0, 0, 0), some 4⟩, 8/10, false, []⟩
    ⟨none, none, 25, 0⟩ 0 0 rfl (by norm_num) (by norm_num) rfl
  exact ⟨h.1, h.2.1⟩

theorem processDamageCommand_queues (g : Graph) (d : BotDefinition)
    (b : BotState) (cmd : DamageCommand) (roll : ℚ) (sndPick : Nat) :
    (processDamageCommand g d b cmd roll sndPick).1.character.commands =
      b.character.commands ∧
    (processDamageCommand g d b cmd roll sndPick).1.bot_commands =
      b.bot_commands := by
  constructor
  · unfold processDamageCommand
    cases hb : critOccurs cmd roll <;> simp [hb]
  · rfl

theorem drainDamage_trace (g : Graph) (d : BotDefinition) (rolls : Nat → ℚ)
    (snd : Nat → Nat) (l : List DamageCommand) : ∀ (b : BotState) (k : Nat),
    (drainDamage g d rolls snd l b k).2.2 = l ∧
    (drainDamage g d rolls snd l b k).1.character.commands =
      b.character.commands ∧
    (drainDamage g d rolls snd l b k).1.bot_commands = b.bot_commands := by
  induction l with
  | nil => intro b k; exact ⟨rfl, rfl, rfl⟩
  | cons cmd rest ih =>
      intro b k
      have hq := processDamageCommand_queues g d b cmd (rolls k) (snd k)
      have hr := ih (processDamageCommand g d b cmd (rolls k) (snd k)).1 (k + 1)
      refine ⟨?_, ?_, ?_⟩
      · simp [drainDamage, hr.1]
      · simp [drainDamage, hr.2.1, hq.1]
      · simp [drainDamage, hr.2.2, hq.2]

/-- C9: in every bot update tick, both queues (the character damage queue and
the bot's impact queue) are drained fully before the behavior tree runs —
the processed traces are exactly the initial queue contents in FIFO order,
each entry appearing exactly once, the post-drain queues are empty, and the
tree (abstracted as a state transformer) is applied only to the fully
drained state, never interleaved with draining. -/
theorem on_update_drains_before_tree (g : Graph) (d : BotDefinition)
    (tree : BotState → BotState) (b : BotState) (rolls : Nat → ℚ)
    (snd : Nat → Nat) (dt : ℚ) :
    (onUpdate g d tree b rolls snd dt).2.damage_trace = b.character.commands ∧
    (onUpdate g d tree b rolls snd dt).2.impact_trace = b.bot_commands ∧
    (onUpdate g d tree b rolls snd dt).2.state.character.commands = [] ∧
    (onUpdate g d tree b rolls snd dt).2.state.bot_commands = [] ∧
    (onUpdate g d tree b rolls snd dt).1 =
      { tree (pollCommands g d b rolls snd).state with
          restoration_time :=
            (tree (pollCommands g d b rolls snd).state).restoration_time
              - dt } := by
  have h := drainDamage_trace g d rolls snd b.character.commands
    { b with character := { b.character with commands := [] } } 0
  refine ⟨?_, ?_, ?_, rfl, rfl⟩
  · show (pollCommands g d b rolls snd).damage_trace = b.character.commands
    unfold pollCommands
    exact h.1
  · show (pollCommands g d b rolls snd).impact_trace = b.bot_commands
    unfold pollCommands
    exact h.2.2
  · show (pollCommands g d b rolls snd).state.character.commands = []
    unfold pollCommands
    exact h.2.1

/-- C10: every Damage command the melee action leaf pushes carries the
default (null) source handle, no hitbox and zero critical probability; when
the victim processes such a command, source resolution never succeeds (its
target is unchanged, so the melee attacker is never acquired), the head-shot
critical path never triggers (head flag unchanged), and health drops by
exactly the command's amount. -/
theorem melee_damage_null_source (s : DoMeleeAttack) (ctx : MeleeContext)
    (animPick : Nat) (sndPick : Nat → Nat) (cmd : DamageCommand)
    (hmem : cmd ∈ (doMeleeAttackTick s ctx animPick sndPick).pushed_commands) :
    cmd.who = none ∧ cmd.hitbox = none ∧ cmd.critical_shot_probability = 0 ∧
    (∀ (g : Graph) (d : BotDefinition) (b : BotState) (roll : ℚ) (sp : Nat),
      (processDamageCommand g d b cmd roll sp).1.target = b.target ∧
      (processDamageCommand g d b cmd roll sp).1.head_exploded =
        b.head_exploded ∧
      (processDamageCommand g d b cmd roll sp).1.character.health =
        b.character.health - cmd.amount) := by
  have hshape : cmd.who = none ∧ cmd.hitbox = none ∧
      cmd.critical_shot_probability = 0 := by
    unfold doMeleeAttackTick at hmem
    cases htgt : ctx.target with
    | none => simp [htgt] at hmem
    | some t =>
        simp [htgt] at hmem
        obtain ⟨-, -, hcmd⟩ := hmem
        rw [hcmd]
        exact ⟨rfl, rfl, rfl⟩
  refine ⟨hshape.1, hshape.2.1, hshape.2.2, ?_⟩
  intro g d b roll sp
  have hcrit : critOccurs cmd roll = false := by
    simp [critOccurs, hshape.2.1]
  refine ⟨?_, ?_, processDamageCommand_health_nohitbox g d b cmd roll sp
    hshape.2.1⟩
  · rw [processDamageCommand_target]
    simp [acquireTarget, Graph.tryGet, hshape.1]
  · unfold processDamageCommand
    simp [hcrit]

/-- Closed witness for `melee_damage_null_source`: the command produced by a
concrete melee hit has a null source and no hitbox, and a victim processing
it keeps its (empty) target, keeps its head intact and loses exactly 10
health. -/
theorem melee_damage_null_source_witness :
    (DamageCommand.mk none none 10 0).who = none ∧
    (processDamageCommand (fun _ => none) ⟨false, [], [], []⟩
      ⟨⟨50, 50, []⟩, none, 0, false, []⟩
      ⟨none, none, 10, 0⟩ 0 0).1.target = none ∧
    (processDamageCommand (fun _ => none) ⟨false, [], [], []⟩
      ⟨⟨50, 50, []⟩, none, 0, false, []⟩
      ⟨none, none, 10, 0⟩ 0 0).1.head_exploded = false ∧
    (processDamageCommand (fun _ => none) ⟨false, [], [], []⟩
      ⟨⟨50, 50, []⟩, none, 0, false, []⟩
      ⟨none, none, 10, 0⟩ 0 0).1.character.health = 50 - 10 := by
  have h := melee_damage_null_source ⟨1, 0⟩
    { animations := fun _ => ⟨true, 1, false, [⟨1⟩]⟩,
      upper_body_machine := ⟨3, 2, 3, [5]⟩,
      definition := ⟨false, [⟨10⟩], [], []⟩,
      target := some ⟨(0, 0, 0), some 9⟩, target_has_character := true,
      dt := 1/100, is_attacking := false } 0 (fun _ => 0)
    ⟨none, none, 10, 0⟩ (by decide)
  have hv := h.2.2.2 (fun _ => none) ⟨false, [], [], []⟩
    ⟨⟨50, 50, []⟩, none, 0, false, []⟩ 0 0
  exact ⟨h.1, hv.1, hv.2.1, hv.2.2⟩

end StationIapetus
